import Mathlib

/-!
Verification development for the camera-sensor core (CameraSensor.cc and
DepthCameraSensor.cc of the ign-sensors repository).

The two C++ translation units are shallowly embedded below.  Conventions:

- IEEE-754 doubles and floats are modelled as rationals; a floating-point
  literal is modelled by the exact value of the corresponding IEEE-754
  double constant, or by its decimal reading when that is exact.
- Pointers that can be null are modelled as Option values; scenes and
  camera handles carry numeric identities so that handle identity and
  scene attachment are observable.
- The std::uint64_t save counter is a Nat reduced modulo 2 to the 64.
- Fallible filesystem and codec operations performed by external
  libraries (isDirectory, createDirectories, SavePNG) are modelled by a
  SaveEnv record of boolean outcomes supplied as input.
- C++ exceptions are modelled with Except: a function that can let an
  exception escape returns Except String; a caught exception is absorbed
  by a match, mirroring the try/catch block in the source.
- Dereferencing a null pointer is undefined behavior in C++; the few such
  paths (creating a camera while no scene is bound, reading the far clip
  plane while no camera exists) are modelled as failure results and are
  marked in comments; no theorem below exercises them.
-/

/-- Exact value of the IEEE-754 double constant IGN_PI (the value of M_PI,
884279719003555 divided by 2 to the 48). -/
def ignPi : ℚ := 884279719003555 / 281474976710656

/-- The literal 0.01, the lower bound of the horizontal field-of-view check. -/
def fovMin : ℚ := 1 / 100

/-- A depth sample as stored in a float buffer: a finite value or one of the
two signed infinities (NaN never arises in the modelled code paths). -/
inductive Depth where
  | fin : ℚ → Depth
  | pinf : Depth
  | ninf : Depth
  deriving Repr, DecidableEq

/-- Comparison of a float buffer entry with a finite bound, as in the C++
expression comparing a sample with the far plane: sample greater or equal. -/
def Depth.geQ : Depth → ℚ → Bool
  | Depth.pinf, _ => true
  | Depth.ninf, _ => false
  | Depth.fin q, x => x ≤ q

/-- Comparison of a float buffer entry with a finite bound: sample less or
equal, as in the comparison of a sample with the near plane. -/
def Depth.leQ : Depth → ℚ → Bool
  | Depth.pinf, _ => false
  | Depth.ninf, _ => true
  | Depth.fin q, x => q ≤ x

/-- Noise kinds distinguished by the noise-handling loop of CreateCamera:
sdf::NoiseType::GAUSSIAN, sdf::NoiseType::NONE, and any other value. -/
inductive NoiseType where
  | noiseNone : NoiseType
  | gaussian : NoiseType
  | other : NoiseType
  deriving Repr, DecidableEq

/-- The camera part of the sensor configuration (the sdf::Camera object
returned by sdfSensor.CameraSensor(), respectively the camera SDF element
of the depth sensor), with the fields the embedded code reads. -/
structure CameraConfig where
  imageWidth : Nat
  imageHeight : Nat
  horizontalFov : ℚ
  nearClip : ℚ
  farClip : ℚ
  distortionK1 : ℚ
  distortionK2 : ℚ
  distortionP1 : ℚ
  distortionP2 : ℚ
  distortionK3 : ℚ
  intrinsicsFx : ℚ
  intrinsicsFy : ℚ
  intrinsicsCx : ℚ
  intrinsicsCy : ℚ
  noise : NoiseType
  pixelFormatRGB8 : Bool
  saveFrames : Bool
  saveFramesPath : String
  deriving Repr, DecidableEq

/-- A rendering-engine camera object (ignition::rendering::Camera) with the
parameters the sensor sets on it.  The id field gives the handle identity,
sceneId records which scene created it. -/
structure RenderCamera where
  id : Nat
  sceneId : Nat
  imageWidth : Nat
  imageHeight : Nat
  nearClip : ℚ
  farClip : ℚ
  aspect : ℚ
  hfov : ℚ
  antiAliasing : Nat
  formatRGB : Bool
  deriving Repr, DecidableEq

/-- The msgs::CameraInfo protobuf message.  The repeated fields k (of the
distortion), k (of the intrinsics), p (of the projection),
rectification_matrix and the repeated header data are modelled as lists to
which the protobuf add calls append. -/
structure CameraInfoMsg where
  distortionModelSet : Bool
  distortionK : List ℚ
  intrinsicsK : List ℚ
  projectionP : List ℚ
  rectification : List ℚ
  headerData : List (String × List String)
  width : Nat
  height : Nat
  stampSec : Int
  stampNsec : Int
  deriving Repr, DecidableEq

/-- A freshly constructed CameraInfo message (all repeated fields empty). -/
def CameraInfoMsg.init : CameraInfoMsg :=
  { distortionModelSet := false, distortionK := [], intrinsicsK := []
    projectionP := [], rectification := [], headerData := []
    width := 0, height := 0, stampSec := 0, stampNsec := 0 }

/-- The state held by CameraSensor and CameraSensorPrivate: the bound scene,
the rendering camera handle, the set of cameras attached to the scene root
by this sensor, a counter yielding fresh camera identities, the camera info
message and the save-related members.  Member initializers of
CameraSensorPrivate give the initial values. -/
structure ColorState where
  cameraSdf : Option CameraConfig
  scene : Option Nat
  camera : Option RenderCamera
  sceneChildren : List Nat
  nextHandle : Nat
  infoMsg : CameraInfoMsg
  initialized : Bool
  noisesSet : Bool
  imageCreated : Bool
  saveImage : Bool
  saveImagePath : String
  savePrefixStr : String
  saveImageCounter : Nat
  deriving Repr, DecidableEq

/-- Outcomes of the external filesystem and codec calls made during one
SaveImage call: whether isDirectory finds the output directory, whether
createDirectories succeeds, and whether SavePNG succeeds.  The source
ignores the SavePNG result, so pngOk influences nothing. -/
structure SaveEnv where
  dirExists : Bool
  mkdirOk : Bool
  pngOk : Bool
  deriving Repr, DecidableEq

/-- The simulation clock value passed to Update. -/
structure SimTime where
  sec : Int
  nsec : Int
  deriving Repr, DecidableEq

/-- The msgs::Image message built by CameraSensor::Update. -/
structure ImageMsg where
  width : Nat
  height : Nat
  step : Nat
  formatKnown : Bool
  stampSec : Int
  stampNsec : Int
  frameId : String
  data : List Nat
  deriving Repr, DecidableEq

/-- The block of CameraSensor::CreateCamera that fills the camera info
message: it appends five distortion coefficients, nine intrinsics entries,
twelve projection entries and the nine entries of the identity
rectification matrix, appends the frame id to the header data, and sets
width and height. -/
def buildInfoStep (cfg : CameraConfig) (name : String) (m : CameraInfoMsg) :
    CameraInfoMsg :=
  { m with
    distortionModelSet := true
    distortionK := m.distortionK ++
      [cfg.distortionK1, cfg.distortionK2, cfg.distortionP1,
       cfg.distortionP2, cfg.distortionK3]
    intrinsicsK := m.intrinsicsK ++
      [cfg.intrinsicsFx, 0, cfg.intrinsicsCx,
       0, cfg.intrinsicsFy, cfg.intrinsicsCy,
       0, 0, 1]
    projectionP := m.projectionP ++
      [cfg.intrinsicsFx, 0, cfg.intrinsicsCx, 0,
       0, cfg.intrinsicsFy, cfg.intrinsicsCy, 0,
       0, 0, 1, 0]
    rectification := m.rectification ++ [1, 0, 0, 0, 1, 0, 0, 0, 1]
    headerData := m.headerData ++ [("frame_id", [name])]
    width := cfg.imageWidth
    height := cfg.imageHeight }

/-- CameraSensor::CreateCamera.  Returns the boolean result together with
the mutated sensor state.  The rendering camera is created and assigned to
the handle, and several of its parameters are set, before the horizontal
field of view is validated; on an invalid field of view the function
returns false with the handle already assigned and the camera not attached
to the scene root.  A null scene pointer would be dereferenced in C++ at
the camera-creation call; that path is modelled as a failure and is not
exercised by any theorem. -/
def CameraSensor.CreateCamera (name : String) (st : ColorState) :
    Bool × ColorState :=
  match st.cameraSdf with
  | none => (false, st)
  | some cfg =>
    let st1 := { st with infoMsg := buildInfoStep cfg name st.infoMsg }
    match st1.scene with
    | none => (false, st1)
    | some sc =>
      let cam0 : RenderCamera :=
        { id := st1.nextHandle, sceneId := sc
          imageWidth := cfg.imageWidth, imageHeight := cfg.imageHeight
          nearClip := cfg.nearClip, farClip := cfg.farClip
          aspect := 0, hfov := 0, antiAliasing := 0, formatRGB := false }
      let st2 := { st1 with camera := some cam0
                            nextHandle := st1.nextHandle + 1 }
      let st3 := if cfg.noise = NoiseType.gaussian
        then { st2 with noisesSet := true } else st2
      let cam1 := { cam0 with antiAliasing := 2 }
      let st4 := { st3 with camera := some cam1 }
      if cfg.horizontalFov < fovMin ∨ ignPi * 2 < cfg.horizontalFov then
        (false, st4)
      else
        let cam2 := { cam1 with
          aspect := (cfg.imageWidth : ℚ) / (cfg.imageHeight : ℚ)
          hfov := cfg.horizontalFov }
        let cam3 := if cfg.pixelFormatRGB8
          then { cam2 with formatRGB := true } else cam2
        let st5 := { st4 with camera := some cam3, imageCreated := true
                              sceneChildren := st4.sceneChildren ++ [cam3.id] }
        let st6 := if cfg.saveFrames then
            { st5 with saveImagePath := cfg.saveFramesPath
                       savePrefixStr := name ++ "_"
                       saveImage := true }
          else st5
        (true, st6)

/-- CameraSensorPrivate::RemoveCamera: the scene argument is only tested for
null around a todo comment; the camera handle is reset to null. -/
def CameraSensorPrivate.RemoveCamera (_scene : Option Nat)
    (st : ColorState) : ColorState :=
  { st with camera := none }

/-- CameraSensor::SetScene: when the argument differs from the bound scene,
remove the camera, store the new scene and, if the sensor is initialized,
create a camera against it; otherwise do nothing. -/
def CameraSensor.SetScene (name : String) (st : ColorState)
    (newScene : Option Nat) : ColorState :=
  if st.scene ≠ newScene then
    let st1 := CameraSensorPrivate.RemoveCamera st.scene st
    let st2 := { st1 with scene := newScene }
    if st2.initialized then (CameraSensor.CreateCamera name st2).2 else st2
  else st

/-- CameraSensorPrivate::SaveImage.  If the output directory is absent and
cannot be created the call fails before anything else happens.  Otherwise
the filename is built from the prefix and the counter, the counter is
incremented, and the image is encoded and written; the SavePNG result is
ignored and the call returns true.  The third component is the filename
written (none when no write was attempted). -/
def CameraSensorPrivate.SaveImage (env : SaveEnv) (st : ColorState)
    (_width _height : Nat) : Bool × ColorState × Option String :=
  if ¬ env.dirExists = true ∧ ¬ env.mkdirOk = true then (false, st, none)
  else
    let filename := st.savePrefixStr ++ toString st.saveImageCounter ++ ".png"
    let st1 := { st with saveImageCounter := (st.saveImageCounter + 1) % 2 ^ 64 }
    (true, st1, some filename)

/-- The common::EventT invocation: callbacks run in registration order; the
first exception aborts the remaining callbacks and escapes the event. -/
def runEvent (cbs : List (ImageMsg → Except String Unit)) (m : ImageMsg) :
    Except String Unit :=
  match cbs with
  | [] => Except.ok ()
  | c :: rest =>
    match c m with
    | Except.ok _ => runEvent rest m
    | Except.error e => Except.error e

/-- The try/catch that wraps the image-event invocation in both Update
implementations: whatever the outcome of the event, ok or exception, the
exception is only logged and the sensor state continues unchanged; nothing
escapes to the caller. -/
def absorbEvent {σ : Type} (outcome : Except String Unit) (st : σ) : σ :=
  match outcome with
  | Except.ok _ => st
  | Except.error _ => st

/-- CameraSensor::Update.  Returns false when not initialized or when no
camera exists; otherwise captures a frame (the captured bytes are an input
from the rendering engine), builds and publishes the image message, stamps
and republishes the camera info message, fires the image callbacks inside
a try/catch that absorbs any exception, saves the frame when saving is
enabled, and returns true.  The result carries the mutated state, the
image messages published and the camera info messages published; an
exception escaping Update would surface as an error value of the Except. -/
def CameraSensor.Update (name : String) (st : ColorState) (now : SimTime)
    (captured : List Nat) (cbs : List (ImageMsg → Except String Unit))
    (env : SaveEnv) :
    Except String (Bool × ColorState × List ImageMsg × List CameraInfoMsg) :=
  if ¬ st.initialized = true then Except.ok (false, st, [], [])
  else
    match st.camera with
    | none => Except.ok (false, st, [], [])
    | some cam =>
      let width := cam.imageWidth
      let height := cam.imageHeight
      let bytesPerPixel := if cam.formatRGB then 3 else 0
      let msg : ImageMsg :=
        { width := width, height := height
          step := width * bytesPerPixel
          formatKnown := cam.formatRGB
          stampSec := now.sec, stampNsec := now.nsec
          frameId := name, data := captured }
      let st1 := { st with infoMsg :=
        { st.infoMsg with stampSec := now.sec, stampNsec := now.nsec } }
      let published := [msg]
      let publishedInfo := [st1.infoMsg]
      -- try/catch around the image event: an exception is logged, not rethrown
      let st2 := absorbEvent (runEvent cbs msg) st1
      let st3 := if st2.saveImage
        then (CameraSensorPrivate.SaveImage env st2 width height).2.1
        else st2
      Except.ok (true, st3, published, publishedInfo)

/-- The camera SDF element of the depth sensor, with the fields read by
DepthCameraSensor::CreateCamera.  The clip sub-element is optional; when it
is absent the defaults far equal to 100 and near equal to 0.3 apply. -/
structure DepthConfig where
  imageWidth : Nat
  imageHeight : Nat
  hasClip : Bool
  clipFar : ℚ
  clipNear : ℚ
  horizontalFov : ℚ
  formatR32F : Bool
  saveEnabled : Bool
  savePath : String
  deriving Repr, DecidableEq

/-- A rendering-engine depth camera object.  Note that the sensor never sets
a near clip plane on it (the source keeps the near distance in the private
data instead, to detect occlusion before the near plane). -/
structure DepthRenderCamera where
  id : Nat
  sceneId : Nat
  imageWidth : Nat
  imageHeight : Nat
  farClip : ℚ
  aspect : ℚ
  hfov : ℚ
  antiAliasing : Nat
  formatFloatR : Bool
  depthTexture : Bool
  deriving Repr, DecidableEq

/-- The msgs::Image message built by DepthCameraSensor::Update; its payload
is the float depth buffer.  The depth update does not add a frame id. -/
structure DepthImageMsg where
  width : Nat
  height : Nat
  step : Nat
  stampSec : Int
  stampNsec : Int
  data : List Depth
  deriving Repr, DecidableEq

/-- The state held by DepthCameraSensor and DepthCameraSensorPrivate.  The
member initializers of the private class set near to 0, the save path and
the save prefix to the string dot-slash, and the counter to 0. -/
structure DepthState where
  sdfConfig : Option DepthConfig
  scene : Option Nat
  depthCamera : Option DepthRenderCamera
  sceneChildren : List Nat
  nextHandle : Nat
  near : ℚ
  depthBuffer : Option (List Depth)
  connected : Bool
  initialized : Bool
  saveImage : Bool
  saveImagePath : String
  savePrefixStr : String
  saveImageCounter : Nat
  deriving Repr, DecidableEq

/-- DepthCameraSensorPrivate::RemoveCamera: the body only holds a todo
comment behind a null test of the scene argument, and the line that would
reset the depth camera handle is commented out in the source, so the state
is returned unchanged. -/
def DepthCameraSensorPrivate.RemoveCamera (_scene : Option Nat)
    (st : DepthState) : DepthState :=
  st

/-- The double to unsigned char conversion applied to each tone-mapped
depth value: truncation toward zero, which for the nonnegative values
arising here is the floor.  Conversion of a value outside the unsigned
char range is undefined behavior in C++; the theorems below only apply
this to values between 0 and 255. -/
def toByte (v : ℚ) : Nat := (⌊v⌋).toNat

/-- One step of the maximum-depth scan of DepthCameraSensorPrivate's
SaveImage: a sample replaces the running maximum when it exceeds it and is
not infinite (std::isinf is false on finite values). -/
def maxStep (m : ℚ) : Depth → ℚ
  | Depth.fin q => if m < q then q else m
  | _ => m

/-- The maximum-depth scan of DepthCameraSensorPrivate's SaveImage: the
running maximum starts at 0 and is folded over the buffer. -/
def codeMaxDepth (data : List Depth) : ℚ :=
  data.foldl maxStep 0

/-- The finite sample values of a depth buffer, in order. -/
def finiteVals (data : List Depth) : List ℚ :=
  data.filterMap (fun d => match d with
    | Depth.fin q => some q
    | _ => none)

/-- One tone-mapped pixel value: 255 minus the sample times the factor.  A
non-finite sample would be converted from an infinite double, which is
undefined behavior in C++; it is modelled as none and not relied upon. -/
def depthPixel (factor : ℚ) : Depth → Option Nat
  | Depth.fin q => some (toByte (255 - q * factor))
  | _ => none

/-- The grayscale image buffer built by the depth SaveImage: for each sample
in order, the same tone-mapped value is written to the three channels of
the pixel, giving a flat buffer of three entries per sample. -/
def depthImageBuffer (data : List Depth) : List (Option Nat) :=
  let factor := 255 / codeMaxDepth data
  data.flatMap (fun d => [depthPixel factor d, depthPixel factor d,
                          depthPixel factor d])

/-- DepthCameraSensorPrivate::SaveImage.  Fails before any other action when
the output directory is absent and cannot be created, then fails when the
width or the height is zero; otherwise tone-maps the buffer, builds the
filename from the prefix and the counter, increments the counter, encodes
and writes (the SavePNG result is ignored) and returns true.  The third
component carries the filename and the encoded grayscale buffer (none when
no write was attempted). -/
def DepthCameraSensorPrivate.SaveImage (env : SaveEnv) (st : DepthState)
    (data : List Depth) (width height : Nat) :
    Bool × DepthState × Option (String × List (Option Nat)) :=
  if ¬ env.dirExists = true ∧ ¬ env.mkdirOk = true then (false, st, none)
  else if width = 0 ∨ height = 0 then (false, st, none)
  else
    let img := depthImageBuffer data
    let filename := st.savePrefixStr ++ toString st.saveImageCounter ++ ".png"
    let st1 := { st with saveImageCounter := (st.saveImageCounter + 1) % 2 ^ 64 }
    (true, st1, some (filename, img))

/-- DepthCameraSensor::CreateCamera.  As in the color variant, the depth
camera is created, assigned to the handle and partially configured (width,
height, far clip, anti-aliasing, and the near distance stored in the
private data) before the horizontal field of view is validated; on an
invalid field of view the function returns false with the handle already
assigned and the camera not attached to the scene root.  A null scene
pointer would be dereferenced in C++; that path is modelled as a failure
and is not exercised by any theorem. -/
def DepthCameraSensor.CreateCamera (name : String) (st : DepthState) :
    Bool × DepthState :=
  match st.sdfConfig with
  | none => (false, st)
  | some cfg =>
    let far := if cfg.hasClip then cfg.clipFar else 100
    let near := if cfg.hasClip then cfg.clipNear else (3 : ℚ) / 10
    match st.scene with
    | none => (false, st)
    | some sc =>
      let cam0 : DepthRenderCamera :=
        { id := st.nextHandle, sceneId := sc
          imageWidth := cfg.imageWidth, imageHeight := cfg.imageHeight
          farClip := far, aspect := 0, hfov := 0, antiAliasing := 0
          formatFloatR := false, depthTexture := false }
      let st1 := { st with depthCamera := some cam0
                           nextHandle := st.nextHandle + 1
                           near := near }
      let cam1 := { cam0 with antiAliasing := 2 }
      let st2 := { st1 with depthCamera := some cam1 }
      if cfg.horizontalFov < fovMin ∨ ignPi * 2 < cfg.horizontalFov then
        (false, st2)
      else
        let cam2 := { cam1 with
          aspect := (cfg.imageWidth : ℚ) / (cfg.imageHeight : ℚ)
          hfov := cfg.horizontalFov
          depthTexture := true }
        let cam3 := if cfg.formatR32F
          then { cam2 with formatFloatR := true } else cam2
        let st3 := { st2 with depthCamera := some cam3
                              sceneChildren := st2.sceneChildren ++ [cam3.id] }
        let st4 := if cfg.saveEnabled then
            { st3 with saveImagePath := cfg.savePath
                       savePrefixStr := name ++ "_"
                       saveImage := true }
          else st3
        (true, { st4 with connected := true })

/-- DepthCameraSensor::SetScene: when the argument differs from the bound
scene, call RemoveCamera, store the new scene and, if the sensor is
initialized, create a camera against it; otherwise do nothing. -/
def DepthCameraSensor.SetScene (name : String) (st : DepthState)
    (newScene : Option Nat) : DepthState :=
  if st.scene ≠ newScene then
    let st1 := DepthCameraSensorPrivate.RemoveCamera st.scene st
    let st2 := { st1 with scene := newScene }
    if st2.initialized then (DepthCameraSensor.CreateCamera name st2).2
    else st2
  else st

/-- The per-sample range masking of DepthCameraSensor::OnNewDepthFrame: a
sample at or beyond the far plane becomes plus infinity, else a sample at
or below the near distance becomes minus infinity, else it is unchanged. -/
def maskSample (near far : ℚ) (d : Depth) : Depth :=
  if d.geQ far then Depth.pinf
  else if d.leQ near then Depth.ninf
  else d

/-- DepthCameraSensor::OnNewDepthFrame.  Reads the near distance from the
private data and the far plane from the depth camera (a null camera would
be dereferenced in C++; modelled as a no-op and not exercised), copies the
incoming scan into the persistent buffer, masks the buffer in place, and,
when saving is enabled, hands the raw incoming scan pointer (not the masked
buffer) to SaveImage.  The second component records the buffer, width and
height handed to SaveImage (none when SaveImage was not called). -/
def DepthCameraSensor.OnNewDepthFrame (st : DepthState) (scan : List Depth)
    (width height : Nat) (env : SaveEnv) :
    DepthState × Option (List Depth × Nat × Nat) :=
  match st.depthCamera with
  | none => (st, none)
  | some cam =>
    let near := st.near
    let far := cam.farClip
    let st1 := { st with depthBuffer := some (scan.map (maskSample near far)) }
    if st1.saveImage then
      ((DepthCameraSensorPrivate.SaveImage env st1 scan width height).2.1,
       some (scan, width, height))
    else (st1, none)

/-- The common::EventT invocation for depth image messages. -/
def runDepthEvent (cbs : List (DepthImageMsg → Except String Unit))
    (m : DepthImageMsg) : Except String Unit :=
  match cbs with
  | [] => Except.ok ()
  | c :: rest =>
    match c m with
    | Except.ok _ => runDepthEvent rest m
    | Except.error e => Except.error e

/-- DepthCameraSensor::Update.  Returns false when not initialized or when
no depth camera exists; otherwise updates the camera, builds the image
message carrying the masked persistent depth buffer, publishes it, fires
the image callbacks inside a try/catch that absorbs any exception, and
returns true.  The result carries the mutated state and the messages
published; an exception escaping Update would surface as an error value. -/
def DepthCameraSensor.Update (st : DepthState) (now : SimTime)
    (cbs : List (DepthImageMsg → Except String Unit)) :
    Except String (Bool × DepthState × List DepthImageMsg) :=
  if ¬ st.initialized = true then Except.ok (false, st, [])
  else
    match st.depthCamera with
    | none => Except.ok (false, st, [])
    | some cam =>
      let width := cam.imageWidth
      let height := cam.imageHeight
      let bytesPerPixel := if cam.formatFloatR then 4 else 0
      let msg : DepthImageMsg :=
        { width := width, height := height
          step := width * bytesPerPixel
          stampSec := now.sec, stampNsec := now.nsec
          data := st.depthBuffer.getD [] }
      let published := [msg]
      -- try/catch around the image event: an exception is logged, not rethrown
      let st1 := absorbEvent (runDepthEvent cbs msg) st
      Except.ok (true, st1, published)

/-! Concrete fixtures used by scenario conjuncts, witnesses and
counterexamples. -/

/-- A sensor name used in concrete scenarios. -/
def sensorName : String := "cam"

/-- A valid camera configuration: 320 by 240, a one-radian horizontal field
of view, clip planes 0.1 and 100, RGB pixel format, no noise, no saving. -/
def cfgStd : CameraConfig :=
  { imageWidth := 320, imageHeight := 240, horizontalFov := 1
    nearClip := 1 / 10, farClip := 100
    distortionK1 := 0, distortionK2 := 0, distortionP1 := 0
    distortionP2 := 0, distortionK3 := 0
    intrinsicsFx := 277, intrinsicsFy := 277
    intrinsicsCx := 160, intrinsicsCy := 120
    noise := NoiseType.noiseNone, pixelFormatRGB8 := true
    saveFrames := false, saveFramesPath := "" }

/-- The configuration of the failure scenario: a horizontal field of view of
7 radians, which exceeds two pi. -/
def cfgFov7 : CameraConfig := { cfgStd with horizontalFov := 7 }

/-- The state of a color sensor as constructed, with the member initializers
of CameraSensorPrivate. -/
def colorInit : ColorState :=
  { cameraSdf := none, scene := none, camera := none, sceneChildren := []
    nextHandle := 0, infoMsg := CameraInfoMsg.init, initialized := false
    noisesSet := false, imageCreated := false, saveImage := false
    saveImagePath := "", savePrefixStr := "", saveImageCounter := 0 }

/-- A color sensor that has loaded the valid configuration and is bound to
scene 0, before camera creation. -/
def colorLoaded : ColorState :=
  { colorInit with cameraSdf := some cfgStd, scene := some 0 }

/-- A color sensor that has loaded the 7-radian configuration and is bound
to scene 0, before camera creation. -/
def colorLoadedFov7 : ColorState :=
  { colorInit with cameraSdf := some cfgFov7, scene := some 0 }

/-- A valid depth camera configuration with explicit clip planes 0.1 and
100 and the float depth format. -/
def dcfgStd : DepthConfig :=
  { imageWidth := 3, imageHeight := 1, hasClip := true
    clipFar := 100, clipNear := 1 / 10, horizontalFov := 1
    formatR32F := true, saveEnabled := false, savePath := "" }

/-- The depth camera handle produced by creating dcfgStd against scene 0
with the fresh identity 0. -/
def depthCamStd : DepthRenderCamera :=
  { id := 0, sceneId := 0, imageWidth := 3, imageHeight := 1
    farClip := 100, aspect := 3, hfov := 1, antiAliasing := 2
    formatFloatR := true, depthTexture := true }

/-- The state of a depth sensor as constructed, with the member initializers
of DepthCameraSensorPrivate. -/
def depthInit : DepthState :=
  { sdfConfig := none, scene := none, depthCamera := none
    sceneChildren := [], nextHandle := 0, near := 0, depthBuffer := none
    connected := false, initialized := false, saveImage := false
    saveImagePath := "./", savePrefixStr := "./", saveImageCounter := 0 }

/-- An initialized depth sensor bound to scene 0 whose camera has been
created from dcfgStd: near 0.1 in the private data, far 100 on the camera. -/
def depthBound : DepthState :=
  { depthInit with sdfConfig := some dcfgStd, scene := some 0
                   depthCamera := some depthCamStd, sceneChildren := [0]
                   nextHandle := 1, near := 1 / 10, connected := true
                   initialized := true }

/-- The color camera handle produced by creating cfgStd against scene 0
with the fresh identity 0. -/
def camStd : RenderCamera :=
  { id := 0, sceneId := 0, imageWidth := 320, imageHeight := 240
    nearClip := 1 / 10, farClip := 100, aspect := (320 : ℚ) / 240
    hfov := 1, antiAliasing := 2, formatRGB := true }

/-- An initialized color sensor bound to scene 0 whose camera has been
created from cfgStd. -/
def colorReady : ColorState :=
  { colorLoaded with camera := some camStd, nextHandle := 1
                     infoMsg := buildInfoStep cfgStd sensorName CameraInfoMsg.init
                     initialized := true, imageCreated := true
                     sceneChildren := [0] }

/-- The depth sensor state depthBound with saving enabled. -/
def depthBoundSave : DepthState :=
  { depthBound with saveImage := true, saveImagePath := "imgs"
                    savePrefixStr := "cam_" }

/-- A color sensor state with saving enabled, output prefix cam_, and the
counter at 0, as in the two-consecutive-saves scenario. -/
def stSave0 : ColorState :=
  { colorInit with saveImage := true, saveImagePath := "imgs"
                   savePrefixStr := "cam_" }

/-- An environment in which the output directory exists and every external
call succeeds. -/
def envOk : SaveEnv := { dirExists := true, mkdirOk := true, pngOk := true }

/-- An environment in which the output directory is absent and cannot be
created (and the codec would succeed if reached). -/
def envNoDir : SaveEnv := { dirExists := false, mkdirOk := false, pngOk := true }

/-- An image callback that throws. -/
def throwingCb : ImageMsg → Except String Unit :=
  fun _ => Except.error "boom"

/-- A depth image callback that throws. -/
def throwingDepthCb : DepthImageMsg → Except String Unit :=
  fun _ => Except.error "boom"

/-- The color sensor after its first camera creation from the loaded valid
configuration, with the initialized flag that Load sets afterwards. -/
def colorAfterFirstCreate : ColorState :=
  { (CameraSensor.CreateCamera sensorName colorLoaded).2 with
    initialized := true }

/-- The same sensor after a scene-change notification rebinds it to scene 1
while initialized, which makes SetScene run CreateCamera a second time on
the same camera info message. -/
def colorAfterRebind : ColorState :=
  CameraSensor.SetScene sensorName colorAfterFirstCreate (some 1)

/-! Characterization lemmas for CreateCamera, shared by the claims. -/

/-- CameraSensor::CreateCamera with a camera configuration, a bound scene
and a horizontal field of view inside the accepted range: the full
resulting state. -/
theorem createCamera_valid (name : String) {st : ColorState}
    {cfg : CameraConfig} {sc : Nat}
    (h1 : st.cameraSdf = some cfg) (h2 : st.scene = some sc)
    (hlo : fovMin ≤ cfg.horizontalFov) (hhi : cfg.horizontalFov ≤ ignPi * 2) :
    CameraSensor.CreateCamera name st =
      (true,
       { st with
         infoMsg := buildInfoStep cfg name st.infoMsg
         camera := some
           { id := st.nextHandle, sceneId := sc
             imageWidth := cfg.imageWidth, imageHeight := cfg.imageHeight
             nearClip := cfg.nearClip, farClip := cfg.farClip
             aspect := (cfg.imageWidth : ℚ) / (cfg.imageHeight : ℚ)
             hfov := cfg.horizontalFov, antiAliasing := 2
             formatRGB := cfg.pixelFormatRGB8 }
         nextHandle := st.nextHandle + 1
         noisesSet := if cfg.noise = NoiseType.gaussian then true
           else st.noisesSet
         imageCreated := true
         sceneChildren := st.sceneChildren ++ [st.nextHandle]
         saveImage := if cfg.saveFrames then true else st.saveImage
         saveImagePath := if cfg.saveFrames then cfg.saveFramesPath
           else st.saveImagePath
         savePrefixStr := if cfg.saveFrames then name ++ "_"
           else st.savePrefixStr }) := by
  have hcond : ¬ (cfg.horizontalFov < fovMin ∨
      ignPi * 2 < cfg.horizontalFov) := by
    rintro (h | h) <;> linarith
  simp only [CameraSensor.CreateCamera, h1, h2]
  rw [if_neg hcond]
  rcases hn : cfg.noise <;> rcases hp : cfg.pixelFormatRGB8 <;>
    rcases hs : cfg.saveFrames <;> simp [hn, hp, hs]

/-- CameraSensor::CreateCamera with a camera configuration, a bound scene
and a horizontal field of view outside the accepted range: the call fails,
yet the camera handle has already been assigned a fresh camera (with the
anti-aliasing level set but neither aspect ratio, field of view nor pixel
format), and nothing was attached to the scene root. -/
theorem createCamera_invalid (name : String) {st : ColorState}
    {cfg : CameraConfig} {sc : Nat}
    (h1 : st.cameraSdf = some cfg) (h2 : st.scene = some sc)
    (hbad : cfg.horizontalFov < fovMin ∨ ignPi * 2 < cfg.horizontalFov) :
    CameraSensor.CreateCamera name st =
      (false,
       { st with
         infoMsg := buildInfoStep cfg name st.infoMsg
         camera := some
           { id := st.nextHandle, sceneId := sc
             imageWidth := cfg.imageWidth, imageHeight := cfg.imageHeight
             nearClip := cfg.nearClip, farClip := cfg.farClip
             aspect := 0, hfov := 0, antiAliasing := 2, formatRGB := false }
         nextHandle := st.nextHandle + 1
         noisesSet := if cfg.noise = NoiseType.gaussian then true
           else st.noisesSet }) := by
  simp only [CameraSensor.CreateCamera, h1, h2]
  rw [if_pos hbad]
  rcases hn : cfg.noise <;> simp [hn]

/-- DepthCameraSensor::CreateCamera with a camera configuration, a bound
scene and a horizontal field of view inside the accepted range: the full
resulting state. -/
theorem depthCreateCamera_valid (name : String) {st : DepthState}
    {cfg : DepthConfig} {sc : Nat}
    (h1 : st.sdfConfig = some cfg) (h2 : st.scene = some sc)
    (hlo : fovMin ≤ cfg.horizontalFov) (hhi : cfg.horizontalFov ≤ ignPi * 2) :
    DepthCameraSensor.CreateCamera name st =
      (true,
       { st with
         depthCamera := some
           { id := st.nextHandle, sceneId := sc
             imageWidth := cfg.imageWidth, imageHeight := cfg.imageHeight
             farClip := if cfg.hasClip then cfg.clipFar else 100
             aspect := (cfg.imageWidth : ℚ) / (cfg.imageHeight : ℚ)
             hfov := cfg.horizontalFov, antiAliasing := 2
             formatFloatR := cfg.formatR32F, depthTexture := true }
         nextHandle := st.nextHandle + 1
         near := if cfg.hasClip then cfg.clipNear else (3 : ℚ) / 10
         sceneChildren := st.sceneChildren ++ [st.nextHandle]
         connected := true
         saveImage := if cfg.saveEnabled then true else st.saveImage
         saveImagePath := if cfg.saveEnabled then cfg.savePath
           else st.saveImagePath
         savePrefixStr := if cfg.saveEnabled then name ++ "_"
           else st.savePrefixStr }) := by
  have hcond : ¬ (cfg.horizontalFov < fovMin ∨
      ignPi * 2 < cfg.horizontalFov) := by
    rintro (h | h) <;> linarith
  simp only [DepthCameraSensor.CreateCamera, h1, h2]
  rw [if_neg hcond]
  rcases hc : cfg.hasClip <;> rcases hf : cfg.formatR32F <;>
    rcases hs : cfg.saveEnabled <;> simp [hc, hf, hs]

/-- DepthCameraSensor::CreateCamera with a camera configuration, a bound
scene and a horizontal field of view outside the accepted range: the call
fails, yet the depth camera handle has already been assigned a fresh
camera and the stored near distance has been overwritten, and nothing was
attached to the scene root. -/
theorem depthCreateCamera_invalid (name : String) {st : DepthState}
    {cfg : DepthConfig} {sc : Nat}
    (h1 : st.sdfConfig = some cfg) (h2 : st.scene = some sc)
    (hbad : cfg.horizontalFov < fovMin ∨ ignPi * 2 < cfg.horizontalFov) :
    DepthCameraSensor.CreateCamera name st =
      (false,
       { st with
         depthCamera := some
           { id := st.nextHandle, sceneId := sc
             imageWidth := cfg.imageWidth, imageHeight := cfg.imageHeight
             farClip := if cfg.hasClip then cfg.clipFar else 100
             aspect := 0, hfov := 0, antiAliasing := 2
             formatFloatR := false, depthTexture := false }
         nextHandle := st.nextHandle + 1
         near := if cfg.hasClip then cfg.clipNear else (3 : ℚ) / 10 }) := by
  simp only [DepthCameraSensor.CreateCamera, h1, h2]
  rw [if_pos hbad]

/-! Helper lemmas shared by the claims. -/

/-- Color SaveImage leaves the camera info message untouched. -/
theorem saveImage_keeps_infoMsg (env : SaveEnv) (st : ColorState)
    (w h : Nat) :
    (CameraSensorPrivate.SaveImage env st w h).2.1.infoMsg = st.infoMsg := by
  unfold CameraSensorPrivate.SaveImage
  split_ifs <;> rfl

/-- Depth SaveImage leaves the persistent depth buffer untouched. -/
theorem depthSaveImage_keeps_buffer (env : SaveEnv) (st : DepthState)
    (data : List Depth) (w h : Nat) :
    (DepthCameraSensorPrivate.SaveImage env st data w h).2.1.depthBuffer =
      st.depthBuffer := by
  unfold DepthCameraSensorPrivate.SaveImage
  split_ifs <;> rfl

/-- Claim C5: SetScene is idempotent.  Assigning the scene reference that is
already bound is a no-op for both sensor variants: the whole sensor state,
in particular the camera handle identity and the save counter, is returned
unchanged. -/
theorem setScene_idempotent (name : String) (stC : ColorState)
    (stD : DepthState) :
    CameraSensor.SetScene name stC stC.scene = stC ∧
    DepthCameraSensor.SetScene name stD stD.scene = stD := by
  constructor <;> simp [CameraSensor.SetScene, DepthCameraSensor.SetScene]

/-- Witness for claim C5 at a concrete bound color sensor and a concrete
bound depth sensor. -/
theorem setScene_idempotent_witness :
    CameraSensor.SetScene sensorName colorReady colorReady.scene = colorReady ∧
    DepthCameraSensor.SetScene sensorName depthBound depthBound.scene =
      depthBound :=
  setScene_idempotent sensorName colorReady depthBound

/-- Claim C2: the range masking of OnNewDepthFrame.  For near less than far,
a finite sample at or beyond far is masked to plus infinity, a sample at or
below near is masked to minus infinity, and a sample strictly between them
is unchanged; OnNewDepthFrame stores exactly the per-sample masked copy of
the incoming scan in the persistent buffer; and the scenario buffer 0.05,
50, 150 with near 0.1 and far 100 masks to minus infinity, 50, plus
infinity. -/
theorem depth_range_masking (near far d : ℚ) (st : DepthState)
    (cam : DepthRenderCamera) (scan : List Depth) (w h : Nat) (env : SaveEnv)
    (hnf : near < far) (hcam : st.depthCamera = some cam) :
    (far ≤ d → maskSample near far (Depth.fin d) = Depth.pinf) ∧
    (d ≤ near → maskSample near far (Depth.fin d) = Depth.ninf) ∧
    (near < d → d < far → maskSample near far (Depth.fin d) = Depth.fin d) ∧
    (DepthCameraSensor.OnNewDepthFrame st scan w h env).1.depthBuffer =
      some (scan.map (maskSample st.near cam.farClip)) ∧
    (DepthCameraSensor.OnNewDepthFrame depthBound
        [Depth.fin (1 / 20), Depth.fin 50, Depth.fin 150] 3 1 envOk).1.depthBuffer =
      some [Depth.ninf, Depth.fin 50, Depth.pinf] := by
  refine ⟨?_, ?_, ?_, ?_, ?_⟩
  · intro hge
    simp [maskSample, Depth.geQ, hge]
  · intro hle
    have hnge : ¬ far ≤ d := by linarith
    simp [maskSample, Depth.geQ, Depth.leQ, hnge, hle]
  · intro hgt hlt
    have hnge : ¬ far ≤ d := by linarith
    have hnle : ¬ d ≤ near := by linarith
    simp [maskSample, Depth.geQ, Depth.leQ, hnge, hnle]
  · simp only [DepthCameraSensor.OnNewDepthFrame, hcam]
    split_ifs with hs
    · rw [depthSaveImage_keeps_buffer]
    · rfl
  · norm_num [DepthCameraSensor.OnNewDepthFrame, depthBound, depthInit,
      depthCamStd, maskSample, Depth.geQ, Depth.leQ]

/-- Witness for claim C2 at near 0.1, far 100, sample 50, the depthBound
sensor and the scenario scan. -/
theorem depth_range_masking_witness :
    (1 : ℚ) / 10 < 100 ∧
    ((100 ≤ (50 : ℚ) →
        maskSample (1 / 10) 100 (Depth.fin 50) = Depth.pinf) ∧
     ((50 : ℚ) ≤ 1 / 10 →
        maskSample (1 / 10) 100 (Depth.fin 50) = Depth.ninf) ∧
     ((1 : ℚ) / 10 < 50 → (50 : ℚ) < 100 →
        maskSample (1 / 10) 100 (Depth.fin 50) = Depth.fin 50) ∧
     (DepthCameraSensor.OnNewDepthFrame depthBound
         [Depth.fin (1 / 20), Depth.fin 50, Depth.fin 150] 3 1
         envOk).1.depthBuffer =
       some ([Depth.fin (1 / 20), Depth.fin 50, Depth.fin 150].map
         (maskSample depthBound.near depthCamStd.farClip)) ∧
     (DepthCameraSensor.OnNewDepthFrame depthBound
         [Depth.fin (1 / 20), Depth.fin 50, Depth.fin 150] 3 1
         envOk).1.depthBuffer =
       some [Depth.ninf, Depth.fin 50, Depth.pinf]) :=
  ⟨by norm_num,
   depth_range_masking (1 / 10) 100 50 depthBound depthCamStd
     [Depth.fin (1 / 20), Depth.fin 50, Depth.fin 150] 3 1 envOk
     (by norm_num) rfl⟩

/-- Claim C8: while saving is enabled, OnNewDepthFrame hands the raw
unmasked scan (with the width and height it received) to SaveImage, while
the persistent buffer that Update later publishes holds the masked copy. -/
theorem depth_save_uses_raw_buffer (st : DepthState)
    (cam : DepthRenderCamera) (scan : List Depth) (w h : Nat) (env : SaveEnv)
    (hcam : st.depthCamera = some cam) (hsave : st.saveImage = true) :
    (DepthCameraSensor.OnNewDepthFrame st scan w h env).2 =
      some (scan, w, h) ∧
    (DepthCameraSensor.OnNewDepthFrame st scan w h env).1.depthBuffer =
      some (scan.map (maskSample st.near cam.farClip)) := by
  constructor
  · simp [DepthCameraSensor.OnNewDepthFrame, hcam, hsave]
  · simp only [DepthCameraSensor.OnNewDepthFrame, hcam]
    split_ifs
    rw [depthSaveImage_keeps_buffer]

/-- Witness for claim C8 at the depthBoundSave sensor and the scenario
scan. -/
theorem depth_save_uses_raw_buffer_witness :
    (DepthCameraSensor.OnNewDepthFrame depthBoundSave
        [Depth.fin (1 / 20), Depth.fin 50, Depth.fin 150] 3 1 envOk).2 =
      some ([Depth.fin (1 / 20), Depth.fin 50, Depth.fin 150], 3, 1) ∧
    (DepthCameraSensor.OnNewDepthFrame depthBoundSave
        [Depth.fin (1 / 20), Depth.fin 50, Depth.fin 150] 3 1
        envOk).1.depthBuffer =
      some ([Depth.fin (1 / 20), Depth.fin 50, Depth.fin 150].map
        (maskSample depthBoundSave.near depthCamStd.farClip)) :=
  depth_save_uses_raw_buffer depthBoundSave depthCamStd
    [Depth.fin (1 / 20), Depth.fin 50, Depth.fin 150] 3 1 envOk rfl rfl

/-- Claim C7: for every list of registered frame callbacks, including ones
that throw, Update never surfaces an error to its caller (the try/catch
around the event absorbs it): both Update variants return an ok value with
result true, and the image message publish that precedes the callback
invocation has taken place (exactly one image message is published). -/
theorem update_catches_callback_exceptions (name : String)
    (stC : ColorState) (camC : RenderCamera) (stD : DepthState)
    (camD : DepthRenderCamera) (now : SimTime) (captured : List Nat)
    (env : SaveEnv) (cbsC : List (ImageMsg → Except String Unit))
    (cbsD : List (DepthImageMsg → Except String Unit))
    (h1 : stC.initialized = true) (h2 : stC.camera = some camC)
    (h3 : stD.initialized = true) (h4 : stD.depthCamera = some camD) :
    (∃ st2 msg infos, CameraSensor.Update name stC now captured cbsC env =
      Except.ok (true, st2, [msg], infos)) ∧
    (∃ st2 msg, DepthCameraSensor.Update stD now cbsD =
      Except.ok (true, st2, [msg])) := by
  constructor
  · simp only [CameraSensor.Update, h1, h2, not_true, if_false,
      Bool.true_eq_false, ite_false]
    exact ⟨_, _, _, rfl⟩
  · simp only [DepthCameraSensor.Update, h3, h4, not_true, if_false,
      Bool.true_eq_false, ite_false]
    exact ⟨_, _, rfl⟩

/-- Witness for claim C7 at concrete ready sensors with a single callback
that throws. -/
theorem update_catches_callback_exceptions_witness :
    (∃ st2 msg infos, CameraSensor.Update sensorName colorReady
        { sec := 3, nsec := 5 } [7, 7, 7] [throwingCb] envOk =
      Except.ok (true, st2, [msg], infos)) ∧
    (∃ st2 msg, DepthCameraSensor.Update depthBound { sec := 3, nsec := 5 }
        [throwingDepthCb] =
      Except.ok (true, st2, [msg])) :=
  update_catches_callback_exceptions sensorName colorReady camStd depthBound
    depthCamStd { sec := 3, nsec := 5 } [7, 7, 7] envOk [throwingCb]
    [throwingDepthCb] rfl rfl rfl rfl

/-- Claim C3 counterexample: a SaveImage call made while the output
directory is absent and cannot be created returns false without computing a
filename and without incrementing the counter, so it is not the case that
every SaveImage call increments the save counter by exactly 1. -/
theorem saveImage_not_always_incrementing :
    stSave0.saveImageCounter = 0 ∧
    CameraSensorPrivate.SaveImage envNoDir stSave0 320 240 =
      (false, stSave0, none) ∧
    (CameraSensorPrivate.SaveImage envNoDir stSave0
      320 240).2.1.saveImageCounter = 0 :=
  ⟨rfl, rfl, rfl⟩

/-- Claim C3 (amended): every SaveImage call that passes its early checks
(the output directory exists or is created; in the depth variant the width
and height are nonzero) computes the filename as the prefix, the current
counter value and the png extension, and then increments the counter by
exactly 1, regardless of whether the subsequent encode and write succeed or
fail (the environment argument, including the codec outcome, is arbitrary);
two consecutive such saves with prefix cam_ starting at counter 0 produce
cam_0.png and then cam_1.png. -/
theorem saveImage_filename_and_increment (env : SaveEnv) (stC : ColorState)
    (stD : DepthState) (data : List Depth) (w h wd hd : Nat)
    (hdir : env.dirExists = true ∨ env.mkdirOk = true)
    (hcntC : stC.saveImageCounter + 1 < 2 ^ 64)
    (hcntD : stD.saveImageCounter + 1 < 2 ^ 64)
    (hwd : wd ≠ 0) (hhd : hd ≠ 0) :
    CameraSensorPrivate.SaveImage env stC w h =
      (true, { stC with saveImageCounter := stC.saveImageCounter + 1 },
       some (stC.savePrefixStr ++ toString stC.saveImageCounter ++ ".png")) ∧
    DepthCameraSensorPrivate.SaveImage env stD data wd hd =
      (true, { stD with saveImageCounter := stD.saveImageCounter + 1 },
       some (stD.savePrefixStr ++ toString stD.saveImageCounter ++ ".png",
             depthImageBuffer data)) ∧
    (CameraSensorPrivate.SaveImage env stSave0 320 240).2.2 =
      some "cam_0.png" ∧
    (CameraSensorPrivate.SaveImage env
        (CameraSensorPrivate.SaveImage env stSave0 320 240).2.1
        320 240).2.2 =
      some "cam_1.png" := by
  have hcond : ¬ (¬ env.dirExists = true ∧ ¬ env.mkdirOk = true) := by
    rcases hdir with hd0 | hd0 <;> simp [hd0]
  refine ⟨?_, ?_, ?_, ?_⟩
  · unfold CameraSensorPrivate.SaveImage
    rw [if_neg hcond, Nat.mod_eq_of_lt hcntC]
  · unfold DepthCameraSensorPrivate.SaveImage
    rw [if_neg hcond, if_neg (by simp [hwd, hhd]), Nat.mod_eq_of_lt hcntD]
  · unfold CameraSensorPrivate.SaveImage
    rw [if_neg hcond]
    rfl
  · unfold CameraSensorPrivate.SaveImage
    rw [if_neg hcond, if_neg hcond]
    rfl

/-- Witness for the amended claim C3 at a concrete environment, a concrete
color save state with prefix cam_ and counter 0, and a concrete depth save
state. -/
theorem saveImage_filename_and_increment_witness :
    CameraSensorPrivate.SaveImage envOk stSave0 320 240 =
      (true, { stSave0 with saveImageCounter := stSave0.saveImageCounter + 1 },
       some (stSave0.savePrefixStr ++ toString stSave0.saveImageCounter ++
             ".png")) ∧
    DepthCameraSensorPrivate.SaveImage envOk depthBoundSave [Depth.fin 1]
        3 1 =
      (true, { depthBoundSave with
                 saveImageCounter := depthBoundSave.saveImageCounter + 1 },
       some (depthBoundSave.savePrefixStr ++
             toString depthBoundSave.saveImageCounter ++ ".png",
             depthImageBuffer [Depth.fin 1])) ∧
    (CameraSensorPrivate.SaveImage envOk stSave0 320 240).2.2 =
      some "cam_0.png" ∧
    (CameraSensorPrivate.SaveImage envOk
        (CameraSensorPrivate.SaveImage envOk stSave0 320 240).2.1
        320 240).2.2 =
      some "cam_1.png" :=
  saveImage_filename_and_increment envOk stSave0 depthBoundSave
    [Depth.fin 1] 320 240 3 1 (Or.inl rfl) (by decide) (by decide)
    (by decide) (by decide)

/-- Claim C10: both SaveImage variants return false before the counter
increment when the output directory is absent and cannot be created, and
the depth variant additionally when the width or the height is zero; on
every such path the state is unchanged (in particular the counter) and no
file is written; and the counter advances exactly on the calls that pass
all early checks and reach the encode step, where a file is written. -/
theorem saveImage_early_failure_paths (env : SaveEnv) (stC : ColorState)
    (stD : DepthState) (data : List Depth) (w h wd hd : Nat) :
    ((env.dirExists = false ∧ env.mkdirOk = false) →
      CameraSensorPrivate.SaveImage env stC w h = (false, stC, none)) ∧
    ((env.dirExists = false ∧ env.mkdirOk = false) →
      DepthCameraSensorPrivate.SaveImage env stD data wd hd =
        (false, stD, none)) ∧
    ((env.dirExists = true ∨ env.mkdirOk = true) → (wd = 0 ∨ hd = 0) →
      DepthCameraSensorPrivate.SaveImage env stD data wd hd =
        (false, stD, none)) ∧
    ((CameraSensorPrivate.SaveImage env stC w h).2.1.saveImageCounter ≠
        stC.saveImageCounter →
      (env.dirExists = true ∨ env.mkdirOk = true)) ∧
    ((DepthCameraSensorPrivate.SaveImage env stD data
          wd hd).2.1.saveImageCounter ≠ stD.saveImageCounter →
      ((env.dirExists = true ∨ env.mkdirOk = true) ∧ wd ≠ 0 ∧ hd ≠ 0)) ∧
    ((env.dirExists = true ∨ env.mkdirOk = true) →
      (CameraSensorPrivate.SaveImage env stC w h).2.1.saveImageCounter =
        (stC.saveImageCounter + 1) % 2 ^ 64 ∧
      ((CameraSensorPrivate.SaveImage env stC w h).2.2).isSome = true) ∧
    ((env.dirExists = true ∨ env.mkdirOk = true) → wd ≠ 0 → hd ≠ 0 →
      (DepthCameraSensorPrivate.SaveImage env stD data
          wd hd).2.1.saveImageCounter = (stD.saveImageCounter + 1) % 2 ^ 64 ∧
      ((DepthCameraSensorPrivate.SaveImage env stD data wd hd).2.2).isSome =
        true) := by
  rcases env with ⟨de, mo, po⟩
  rcases de <;> rcases mo <;>
    simp only [CameraSensorPrivate.SaveImage,
      DepthCameraSensorPrivate.SaveImage] <;>
    by_cases hw0 : wd = 0 <;> by_cases hh0 : hd = 0 <;>
    simp [hw0, hh0]

/-- Witness for claim C10 at a concrete environment without a usable output
directory and concrete save states. -/
theorem saveImage_early_failure_paths_witness :
    ((envNoDir.dirExists = false ∧ envNoDir.mkdirOk = false) →
      CameraSensorPrivate.SaveImage envNoDir stSave0 320 240 =
        (false, stSave0, none)) ∧
    ((envNoDir.dirExists = false ∧ envNoDir.mkdirOk = false) →
      DepthCameraSensorPrivate.SaveImage envNoDir depthBoundSave
          [Depth.fin 1] 3 1 = (false, depthBoundSave, none)) ∧
    ((envNoDir.dirExists = true ∨ envNoDir.mkdirOk = true) →
      ((3 : Nat) = 0 ∨ (1 : Nat) = 0) →
      DepthCameraSensorPrivate.SaveImage envNoDir depthBoundSave
          [Depth.fin 1] 3 1 = (false, depthBoundSave, none)) ∧
    ((CameraSensorPrivate.SaveImage envNoDir stSave0
          320 240).2.1.saveImageCounter ≠ stSave0.saveImageCounter →
      (envNoDir.dirExists = true ∨ envNoDir.mkdirOk = true)) ∧
    ((DepthCameraSensorPrivate.SaveImage envNoDir depthBoundSave
          [Depth.fin 1] 3 1).2.1.saveImageCounter ≠
        depthBoundSave.saveImageCounter →
      ((envNoDir.dirExists = true ∨ envNoDir.mkdirOk = true) ∧
       (3 : Nat) ≠ 0 ∧ (1 : Nat) ≠ 0)) ∧
    ((envNoDir.dirExists = true ∨ envNoDir.mkdirOk = true) →
      (CameraSensorPrivate.SaveImage envNoDir stSave0
          320 240).2.1.saveImageCounter =
        (stSave0.saveImageCounter + 1) % 2 ^ 64 ∧
      ((CameraSensorPrivate.SaveImage envNoDir stSave0 320 240).2.2).isSome =
        true) ∧
    ((envNoDir.dirExists = true ∨ envNoDir.mkdirOk = true) →
      (3 : Nat) ≠ 0 → (1 : Nat) ≠ 0 →
      (DepthCameraSensorPrivate.SaveImage envNoDir depthBoundSave
          [Depth.fin 1] 3 1).2.1.saveImageCounter =
        (depthBoundSave.saveImageCounter + 1) % 2 ^ 64 ∧
      ((DepthCameraSensorPrivate.SaveImage envNoDir depthBoundSave
          [Depth.fin 1] 3 1).2.2).isSome = true) :=
  saveImage_early_failure_paths envNoDir stSave0 depthBoundSave
    [Depth.fin 1] 320 240 3 1

/-- Claim C1 counterexample: CreateCamera on a configuration whose
horizontal field of view is 7 (greater than two pi) returns failure and
attaches nothing to the scene, but the camera handle does not remain null:
a rendering camera has already been created and assigned to it before the
field-of-view check, in both the color and the depth variant. -/
theorem createCamera_fov7_handle_not_null :
    (CameraSensor.CreateCamera sensorName colorLoadedFov7).1 = false ∧
    ((CameraSensor.CreateCamera sensorName colorLoadedFov7).2.camera).isSome
      = true ∧
    (DepthCameraSensor.CreateCamera sensorName
      { depthInit with sdfConfig := some { dcfgStd with horizontalFov := 7 }
                       scene := some 0 }).1 = false ∧
    ((DepthCameraSensor.CreateCamera sensorName
      { depthInit with sdfConfig := some { dcfgStd with horizontalFov := 7 }
                       scene := some 0 }).2.depthCamera).isSome = true := by
  have hbad : (7 : ℚ) < fovMin ∨ ignPi * 2 < 7 :=
    Or.inr (by norm_num [ignPi])
  have h1 := @createCamera_invalid sensorName colorLoadedFov7 cfgFov7 0
    rfl rfl hbad
  have h2 := @depthCreateCamera_invalid sensorName
    { depthInit with
        sdfConfig := some { dcfgStd with horizontalFov := 7 }
        scene := some 0 }
    { dcfgStd with horizontalFov := 7 } 0 rfl rfl hbad
  rw [h1, h2]
  exact ⟨rfl, rfl, rfl, rfl⟩

/-- Claim C1 (amended): for every loaded configuration and bound scene,
CreateCamera succeeds when the horizontal field of view lies in the range
from 0.01 to two pi; outside that range it fails and no camera is attached
to the scene, but a camera handle is produced nonetheless: the handle has
already been assigned before the validation and is non-null on return.
Both the color and the depth variant behave this way. -/
theorem createCamera_fov_range (name : String) (stC : ColorState)
    (cfg : CameraConfig) (sc : Nat) (stD : DepthState) (dcfg : DepthConfig)
    (sd : Nat)
    (h1 : stC.cameraSdf = some cfg) (h2 : stC.scene = some sc)
    (h3 : stD.sdfConfig = some dcfg) (h4 : stD.scene = some sd) :
    ((fovMin ≤ cfg.horizontalFov ∧ cfg.horizontalFov ≤ ignPi * 2) →
      (CameraSensor.CreateCamera name stC).1 = true) ∧
    ((cfg.horizontalFov < fovMin ∨ ignPi * 2 < cfg.horizontalFov) →
      (CameraSensor.CreateCamera name stC).1 = false ∧
      (CameraSensor.CreateCamera name stC).2.sceneChildren =
        stC.sceneChildren ∧
      ((CameraSensor.CreateCamera name stC).2.camera).isSome = true) ∧
    ((fovMin ≤ dcfg.horizontalFov ∧ dcfg.horizontalFov ≤ ignPi * 2) →
      (DepthCameraSensor.CreateCamera name stD).1 = true) ∧
    ((dcfg.horizontalFov < fovMin ∨ ignPi * 2 < dcfg.horizontalFov) →
      (DepthCameraSensor.CreateCamera name stD).1 = false ∧
      (DepthCameraSensor.CreateCamera name stD).2.sceneChildren =
        stD.sceneChildren ∧
      ((DepthCameraSensor.CreateCamera name stD).2.depthCamera).isSome =
        true) := by
  refine ⟨?_, ?_, ?_, ?_⟩
  · rintro ⟨hlo, hhi⟩
    rw [createCamera_valid name h1 h2 hlo hhi]
  · intro hbad
    rw [createCamera_invalid name h1 h2 hbad]
    exact ⟨rfl, rfl, rfl⟩
  · rintro ⟨hlo, hhi⟩
    rw [depthCreateCamera_valid name h3 h4 hlo hhi]
  · intro hbad
    rw [depthCreateCamera_invalid name h3 h4 hbad]
    exact ⟨rfl, rfl, rfl⟩

/-- Witness for the amended claim C1 at the loaded color and depth sensors
with a one-radian field of view. -/
theorem createCamera_fov_range_witness :
    ((fovMin ≤ cfgStd.horizontalFov ∧ cfgStd.horizontalFov ≤ ignPi * 2) →
      (CameraSensor.CreateCamera sensorName colorLoaded).1 = true) ∧
    ((cfgStd.horizontalFov < fovMin ∨ ignPi * 2 < cfgStd.horizontalFov) →
      (CameraSensor.CreateCamera sensorName colorLoaded).1 = false ∧
      (CameraSensor.CreateCamera sensorName colorLoaded).2.sceneChildren =
        colorLoaded.sceneChildren ∧
      ((CameraSensor.CreateCamera sensorName colorLoaded).2.camera).isSome =
        true) ∧
    ((fovMin ≤ dcfgStd.horizontalFov ∧ dcfgStd.horizontalFov ≤ ignPi * 2) →
      (DepthCameraSensor.CreateCamera sensorName
        { depthInit with sdfConfig := some dcfgStd
                         scene := some 0 }).1 = true) ∧
    ((dcfgStd.horizontalFov < fovMin ∨ ignPi * 2 < dcfgStd.horizontalFov) →
      (DepthCameraSensor.CreateCamera sensorName
        { depthInit with sdfConfig := some dcfgStd
                         scene := some 0 }).1 = false ∧
      (DepthCameraSensor.CreateCamera sensorName
        { depthInit with sdfConfig := some dcfgStd
                         scene := some 0 }).2.sceneChildren =
        ({ depthInit with sdfConfig := some dcfgStd
                          scene := some 0 } : DepthState).sceneChildren ∧
      ((DepthCameraSensor.CreateCamera sensorName
        { depthInit with sdfConfig := some dcfgStd
                         scene := some 0 }).2.depthCamera).isSome = true) :=
  createCamera_fov_range sensorName colorLoaded cfgStd 0
    { depthInit with sdfConfig := some dcfgStd, scene := some 0 } dcfgStd 0
    rfl rfl rfl rfl

/-- Claim C4 counterexample: for the depth sensor, the release step that
SetScene runs before the rebuild (RemoveCamera) does not destroy or null
the previously held camera handle: on a concrete initialized bound sensor
it returns the state unchanged, with the old handle still in place (the
resetting assignment is commented out in the source). -/
theorem depth_removeCamera_keeps_handle :
    depthBound.initialized = true ∧
    DepthCameraSensorPrivate.RemoveCamera depthBound.scene depthBound =
      depthBound ∧
    (DepthCameraSensorPrivate.RemoveCamera depthBound.scene
        depthBound).depthCamera = some depthCamStd :=
  ⟨rfl, rfl, rfl⟩

/-- Claim C4 (amended): on an initialized sensor, SetScene with a scene
different from the bound one creates exactly one new camera handle against
the new scene (the handle counter advances by exactly one and the new
handle carries the fresh identity and the new scene).  For the color
sensor the old handle is also released before the rebuild: RemoveCamera
sets it to null.  For the depth sensor RemoveCamera leaves the old handle
untouched, and the old handle is only replaced when the new camera is
assigned during CreateCamera. -/
theorem setScene_rebind (name : String) (stC : ColorState)
    (cfg : CameraConfig) (s2 : Nat) (stD : DepthState) (dcfg : DepthConfig)
    (t2 : Nat)
    (hCi : stC.initialized = true) (hC1 : stC.cameraSdf = some cfg)
    (hCne : stC.scene ≠ some s2)
    (hClo : fovMin ≤ cfg.horizontalFov)
    (hChi : cfg.horizontalFov ≤ ignPi * 2)
    (hDi : stD.initialized = true) (hD1 : stD.sdfConfig = some dcfg)
    (hDne : stD.scene ≠ some t2)
    (hDlo : fovMin ≤ dcfg.horizontalFov)
    (hDhi : dcfg.horizontalFov ≤ ignPi * 2) :
    (CameraSensorPrivate.RemoveCamera stC.scene stC).camera = none ∧
    DepthCameraSensorPrivate.RemoveCamera stD.scene stD = stD ∧
    (∃ cam2, (CameraSensor.SetScene name stC (some s2)).camera = some cam2 ∧
       cam2.id = stC.nextHandle ∧ cam2.sceneId = s2) ∧
    (CameraSensor.SetScene name stC (some s2)).nextHandle =
      stC.nextHandle + 1 ∧
    (∃ cam2, (DepthCameraSensor.SetScene name stD (some t2)).depthCamera =
       some cam2 ∧ cam2.id = stD.nextHandle ∧ cam2.sceneId = t2) ∧
    (DepthCameraSensor.SetScene name stD (some t2)).nextHandle =
      stD.nextHandle + 1 := by
  have hss : CameraSensor.SetScene name stC (some s2) =
      (CameraSensor.CreateCamera name
        { stC with camera := none, scene := some s2 }).2 := by
    simp [CameraSensor.SetScene, CameraSensorPrivate.RemoveCamera, hCne, hCi]
  have hcv := @createCamera_valid name
    { stC with camera := none, scene := some s2 }
    cfg s2 (by simpa using hC1) rfl hClo hChi
  have hssD : DepthCameraSensor.SetScene name stD (some t2) =
      (DepthCameraSensor.CreateCamera name
        { stD with scene := some t2 }).2 := by
    simp [DepthCameraSensor.SetScene, DepthCameraSensorPrivate.RemoveCamera,
      hDne, hDi]
  have hcvD := @depthCreateCamera_valid name
    { stD with scene := some t2 }
    dcfg t2 (by simpa using hD1) rfl hDlo hDhi
  refine ⟨rfl, rfl, ?_, ?_, ?_, ?_⟩
  · rw [hss, hcv]
    exact ⟨_, rfl, rfl, rfl⟩
  · rw [hss, hcv]
  · rw [hssD, hcvD]
    exact ⟨_, rfl, rfl, rfl⟩
  · rw [hssD, hcvD]

/-- Witness for the amended claim C4: rebinding the ready color sensor and
the bound depth sensor from scene 0 to scene 1. -/
theorem setScene_rebind_witness :
    (CameraSensorPrivate.RemoveCamera colorReady.scene colorReady).camera =
      none ∧
    DepthCameraSensorPrivate.RemoveCamera depthBound.scene depthBound =
      depthBound ∧
    (∃ cam2, (CameraSensor.SetScene sensorName colorReady
        (some 1)).camera = some cam2 ∧
       cam2.id = colorReady.nextHandle ∧ cam2.sceneId = 1) ∧
    (CameraSensor.SetScene sensorName colorReady (some 1)).nextHandle =
      colorReady.nextHandle + 1 ∧
    (∃ cam2, (DepthCameraSensor.SetScene sensorName depthBound
        (some 1)).depthCamera = some cam2 ∧
       cam2.id = depthBound.nextHandle ∧ cam2.sceneId = 1) ∧
    (DepthCameraSensor.SetScene sensorName depthBound (some 1)).nextHandle =
      depthBound.nextHandle + 1 :=
  setScene_rebind sensorName colorReady cfgStd 1 depthBound dcfgStd 1
    rfl rfl (by decide) (by norm_num [fovMin, cfgStd])
    (by norm_num [ignPi, cfgStd]) rfl rfl (by decide)
    (by norm_num [fovMin, dcfgStd]) (by norm_num [ignPi, dcfgStd])

/-- The try/catch absorbs both outcomes: the state continues unchanged. -/
theorem absorbEvent_eq {σ : Type} (b : Except String Unit) (st : σ) :
    absorbEvent b st = st := by
  cases b <;> rfl

/-- Update on an initialized color sensor with a camera publishes the
stored camera info message with only the timestamp refreshed, and keeps
that stamped message as the stored one: no other field of the camera info
message changes during Update. -/
theorem update_infoMsg (name : String) (st : ColorState)
    (cam : RenderCamera) (now : SimTime) (captured : List Nat)
    (cbs : List (ImageMsg → Except String Unit)) (env : SaveEnv)
    (hcam : st.camera = some cam) (hinit : st.initialized = true) :
    ∃ st2 msgs, CameraSensor.Update name st now captured cbs env =
        Except.ok (true, st2, msgs,
          [{ st.infoMsg with stampSec := now.sec, stampNsec := now.nsec }]) ∧
      st2.infoMsg =
        { st.infoMsg with stampSec := now.sec, stampNsec := now.nsec } := by
  simp only [CameraSensor.Update, hinit, hcam, not_true, Bool.true_eq_false,
    if_false, ite_false, absorbEvent_eq]
  refine ⟨_, _, rfl, ?_⟩
  split_ifs
  · rw [saveImage_keeps_infoMsg]
  · rfl

/-- Claim C6 (code bug in the source): after the first camera creation the
camera info descriptor is as specified (width and height equal the
configured resolution, exactly five distortion coefficients, the row-major
intrinsic matrix fx 0 cx 0 fy cy 0 0 1, the identity rectification matrix),
and every Update republishes the stored message with only the timestamp
changed.  However, CreateCamera appends to the repeated fields of the
existing message instead of resetting them, so after a scene rebind (the
second CreateCamera on the same sensor) the distortion coefficient list of
the published descriptor has ten entries instead of five. -/
theorem cameraInfo_descriptor_growth (name : String) (cfg : CameraConfig)
    (now : SimTime) (captured : List Nat) (env : SaveEnv)
    (cbs : List (ImageMsg → Except String Unit))
    (hlo : fovMin ≤ cfg.horizontalFov)
    (hhi : cfg.horizontalFov ≤ ignPi * 2) :
    ((CameraSensor.CreateCamera name
        { colorInit with cameraSdf := some cfg
                         scene := some 0 }).2.infoMsg.width =
       cfg.imageWidth ∧
     (CameraSensor.CreateCamera name
        { colorInit with cameraSdf := some cfg
                         scene := some 0 }).2.infoMsg.height =
       cfg.imageHeight ∧
     (CameraSensor.CreateCamera name
        { colorInit with cameraSdf := some cfg
                         scene := some 0 }).2.infoMsg.distortionK.length =
       5 ∧
     (CameraSensor.CreateCamera name
        { colorInit with cameraSdf := some cfg
                         scene := some 0 }).2.infoMsg.intrinsicsK =
       [cfg.intrinsicsFx, 0, cfg.intrinsicsCx,
        0, cfg.intrinsicsFy, cfg.intrinsicsCy, 0, 0, 1] ∧
     (CameraSensor.CreateCamera name
        { colorInit with cameraSdf := some cfg
                         scene := some 0 }).2.infoMsg.rectification =
       [1, 0, 0, 0, 1, 0, 0, 0, 1]) ∧
    (∀ st cam2, st.camera = some cam2 → st.initialized = true →
      ∃ st2 msgs, CameraSensor.Update name st now captured cbs env =
          Except.ok (true, st2, msgs,
            [{ st.infoMsg with stampSec := now.sec
                               stampNsec := now.nsec }]) ∧
        st2.infoMsg =
          { st.infoMsg with stampSec := now.sec, stampNsec := now.nsec }) ∧
    colorAfterRebind.infoMsg.distortionK.length = 10 := by
  have hcv := @createCamera_valid name
    { colorInit with cameraSdf := some cfg, scene := some 0 }
    cfg 0 rfl rfl hlo hhi
  refine ⟨⟨?_, ?_, ?_, ?_, ?_⟩, ?_, ?_⟩
  · rw [hcv]
    rfl
  · rw [hcv]
    rfl
  · rw [hcv]
    simp [buildInfoStep, colorInit, CameraInfoMsg.init]
  · rw [hcv]
    simp [buildInfoStep, colorInit, CameraInfoMsg.init]
  · rw [hcv]
    simp [buildInfoStep, colorInit, CameraInfoMsg.init]
  · exact fun st cam2 hcam hinit =>
      update_infoMsg name st cam2 now captured cbs env hcam hinit
  · norm_num +decide [colorAfterRebind, colorAfterFirstCreate,
      CameraSensor.SetScene, CameraSensorPrivate.RemoveCamera,
      CameraSensor.CreateCamera, buildInfoStep, colorLoaded, colorInit,
      cfgStd, CameraInfoMsg.init, fovMin, ignPi, sensorName]

/-- Witness for claim C6 at the valid standard configuration, a concrete
clock value and a throwing callback. -/
theorem cameraInfo_descriptor_growth_witness :
    ((CameraSensor.CreateCamera sensorName
        { colorInit with cameraSdf := some cfgStd
                         scene := some 0 }).2.infoMsg.width =
       cfgStd.imageWidth ∧
     (CameraSensor.CreateCamera sensorName
        { colorInit with cameraSdf := some cfgStd
                         scene := some 0 }).2.infoMsg.height =
       cfgStd.imageHeight ∧
     (CameraSensor.CreateCamera sensorName
        { colorInit with cameraSdf := some cfgStd
                         scene := some 0 }).2.infoMsg.distortionK.length =
       5 ∧
     (CameraSensor.CreateCamera sensorName
        { colorInit with cameraSdf := some cfgStd
                         scene := some 0 }).2.infoMsg.intrinsicsK =
       [cfgStd.intrinsicsFx, 0, cfgStd.intrinsicsCx,
        0, cfgStd.intrinsicsFy, cfgStd.intrinsicsCy, 0, 0, 1] ∧
     (CameraSensor.CreateCamera sensorName
        { colorInit with cameraSdf := some cfgStd
                         scene := some 0 }).2.infoMsg.rectification =
       [1, 0, 0, 0, 1, 0, 0, 0, 1]) ∧
    (∀ st cam2, st.camera = some cam2 → st.initialized = true →
      ∃ st2 msgs, CameraSensor.Update sensorName st { sec := 3, nsec := 5 }
          [7, 7, 7] [throwingCb] envOk =
          Except.ok (true, st2, msgs,
            [{ st.infoMsg with stampSec := (3 : Int)
                               stampNsec := (5 : Int) }]) ∧
        st2.infoMsg =
          { st.infoMsg with stampSec := (3 : Int), stampNsec := (5 : Int) }) ∧
    colorAfterRebind.infoMsg.distortionK.length = 10 :=
  cameraInfo_descriptor_growth sensorName cfgStd { sec := 3, nsec := 5 }
    [7, 7, 7] envOk [throwingCb] (by norm_num [fovMin, cfgStd])
    (by norm_num [ignPi, cfgStd])

/-- The running maximum of the depth scan never decreases. -/
theorem le_foldl_maxStep (l : List Depth) : ∀ a : ℚ, a ≤ l.foldl maxStep a := by
  induction l with
  | nil => intro a; exact le_refl a
  | cons d t ih =>
    intro a
    refine le_trans ?_ (ih (maxStep a d))
    cases d with
    | fin q =>
      simp only [maxStep]
      split_ifs with hlt
      · exact le_of_lt hlt
      · exact le_refl a
    | pinf => exact le_refl a
    | ninf => exact le_refl a

/-- Every finite sample is bounded by the final running maximum. -/
theorem mem_le_foldl_maxStep (l : List Depth) :
    ∀ (a x : ℚ), x ∈ finiteVals l → x ≤ l.foldl maxStep a := by
  induction l with
  | nil => intro a x hx; simp [finiteVals] at hx
  | cons d t ih =>
    intro a x hx
    cases d with
    | fin q =>
      simp only [finiteVals, List.filterMap_cons] at hx
      rcases List.mem_cons.mp hx with hh | hh
      · subst hh
        refine le_trans ?_ (le_foldl_maxStep t (maxStep a (Depth.fin x)))
        simp only [maxStep]
        split_ifs with hlt
        · exact le_refl x
        · exact le_of_not_lt hlt
      · exact ih (maxStep a (Depth.fin q)) x hh
    | pinf =>
      simp only [finiteVals, List.filterMap_cons] at hx
      exact ih (maxStep a Depth.pinf) x hx
    | ninf =>
      simp only [finiteVals, List.filterMap_cons] at hx
      exact ih (maxStep a Depth.ninf) x hx

/-- The final running maximum is the initial value or one of the finite
samples: infinite samples never enter the maximum computation. -/
theorem foldl_maxStep_mem (l : List Depth) :
    ∀ a : ℚ, l.foldl maxStep a = a ∨ l.foldl maxStep a ∈ finiteVals l := by
  induction l with
  | nil => intro a; exact Or.inl rfl
  | cons d t ih =>
    intro a
    rw [List.foldl_cons]
    rcases ih (maxStep a d) with hh | hh
    · rw [hh]
      cases d with
      | fin q =>
        by_cases hq : a < q
        · right
          simp [maxStep, hq, finiteVals, List.filterMap_cons]
        · left
          simp [maxStep, hq]
      | pinf => exact Or.inl rfl
      | ninf => exact Or.inl rfl
    · right
      cases d with
      | fin q =>
        simp only [finiteVals, List.filterMap_cons] at hh ⊢
        exact List.mem_cons.mpr (Or.inr hh)
      | pinf => simpa [finiteVals, List.filterMap_cons] using hh
      | ninf => simpa [finiteVals, List.filterMap_cons] using hh

/-- With at least one positive finite sample, the maximum computed by the
depth SaveImage is positive, is itself one of the finite samples, and
bounds all of them: it is the maximum finite sample value, with non-finite
samples excluded. -/
theorem codeMaxDepth_spec (data : List Depth)
    (hpos : ∃ q ∈ finiteVals data, 0 < q) :
    0 < codeMaxDepth data ∧ codeMaxDepth data ∈ finiteVals data ∧
    ∀ x ∈ finiteVals data, x ≤ codeMaxDepth data := by
  obtain ⟨q, hq, hq0⟩ := hpos
  have hub : ∀ x ∈ finiteVals data, x ≤ codeMaxDepth data :=
    fun x hx => mem_le_foldl_maxStep data 0 x hx
  have h0 : 0 < codeMaxDepth data := lt_of_lt_of_le hq0 (hub q hq)
  refine ⟨h0, ?_, hub⟩
  rcases foldl_maxStep_mem data 0 with hh | hh
  · have hcd : codeMaxDepth data = 0 := hh
    rw [hcd] at h0
    exact absurd h0 (lt_irrefl 0)
  · exact hh

/-- Access into the three-channel flat buffer: the pixel of sample index j
is written identically at offsets 3j, 3j plus 1 and 3j plus 2. -/
theorem flatMap_three_get (f : Depth → Option Nat) (l : List Depth) :
    ∀ (j : Nat) (d : Depth), l.get? j = some d →
      ((l.flatMap fun x => [f x, f x, f x]).get? (3 * j) = some (f d) ∧
       (l.flatMap fun x => [f x, f x, f x]).get? (3 * j + 1) = some (f d) ∧
       (l.flatMap fun x => [f x, f x, f x]).get? (3 * j + 2) = some (f d)) := by
  induction l with
  | nil => intro j d hj; simp at hj
  | cons a t ih =>
    intro j d hj
    have hpeel : ∀ (xs : List (Option Nat)) (b1 b2 b3 : Option Nat) (n : Nat),
        (b1 :: b2 :: b3 :: xs).get? (n + 3) = xs.get? n :=
      fun xs b1 b2 b3 n => rfl
    cases j with
    | zero =>
      have hd : a = d := by simpa using hj
      subst hd
      refine ⟨rfl, rfl, rfl⟩
    | succ j =>
      have hj2 : t.get? j = some d := by simpa using hj
      obtain ⟨ih1, ih2, ih3⟩ := ih j d hj2
      have e1 : 3 * (j + 1) = 3 * j + 3 := by ring
      have e2 : 3 * (j + 1) + 1 = 3 * j + 1 + 3 := by ring
      have e3 : 3 * (j + 1) + 2 = 3 * j + 2 + 3 := by ring
      refine ⟨?_, ?_, ?_⟩
      · rw [List.flatMap_cons, List.cons_append, List.cons_append,
          List.cons_append, List.nil_append, e1, hpeel]
        exact ih1
      · rw [List.flatMap_cons, List.cons_append, List.cons_append,
          List.cons_append, List.nil_append, e2, hpeel]
        exact ih2
      · rw [List.flatMap_cons, List.cons_append, List.cons_append,
          List.cons_append, List.nil_append, e3, hpeel]
        exact ih3

/-- Claim C9: the depth SaveImage tone-map.  For every buffer with
nonnegative finite samples at least one of which is positive, the maximum
is the maximum finite sample value (non-finite samples are excluded from
the computation: the maximum is a finite sample value and bounds them
all), and the saved grayscale image maps every finite sample q to the
8-bit value 255 minus q times 255 over the maximum (a value between 0 and
255, truncated to a byte), written identically to the three channels of
the RGB triplet at its index. -/
theorem depth_saveImage_tonemap (env : SaveEnv) (st : DepthState)
    (data : List Depth) (w h : Nat)
    (hdir : env.dirExists = true ∨ env.mkdirOk = true)
    (hw : w ≠ 0) (hh : h ≠ 0) (hlen : data.length = w * h)
    (hnn : ∀ q ∈ finiteVals data, 0 ≤ q)
    (hpos : ∃ q ∈ finiteVals data, 0 < q) :
    (codeMaxDepth data ∈ finiteVals data ∧
     ∀ x ∈ finiteVals data, x ≤ codeMaxDepth data) ∧
    ∃ img, (DepthCameraSensorPrivate.SaveImage env st data w h).2.2 =
        some (st.savePrefixStr ++ toString st.saveImageCounter ++ ".png",
              img) ∧
      ∀ j q, data.get? j = some (Depth.fin q) →
        img.get? (3 * j) =
            some (some (toByte (255 - q * (255 / codeMaxDepth data)))) ∧
        img.get? (3 * j + 1) =
            some (some (toByte (255 - q * (255 / codeMaxDepth data)))) ∧
        img.get? (3 * j + 2) =
            some (some (toByte (255 - q * (255 / codeMaxDepth data)))) ∧
        0 ≤ 255 - q * (255 / codeMaxDepth data) ∧
        255 - q * (255 / codeMaxDepth data) ≤ 255 := by
  obtain ⟨hmax0, hmem, hub⟩ := codeMaxDepth_spec data hpos
  have hcond : ¬ (¬ env.dirExists = true ∧ ¬ env.mkdirOk = true) := by
    rcases hdir with h0 | h0 <;> simp [h0]
  refine ⟨⟨hmem, hub⟩, depthImageBuffer data, ?_, ?_⟩
  · unfold DepthCameraSensorPrivate.SaveImage
    rw [if_neg hcond, if_neg (by simp [hw, hh])]
  · intro j q hj
    have hqmem : q ∈ finiteVals data :=
      List.mem_filterMap.mpr ⟨Depth.fin q, List.get?_mem hj, rfl⟩
    have hq0 : 0 ≤ q := hnn q hqmem
    have hqm : q ≤ codeMaxDepth data := hub q hqmem
    obtain ⟨g1, g2, g3⟩ :=
      flatMap_three_get (depthPixel (255 / codeMaxDepth data)) data j
        (Depth.fin q) hj
    refine ⟨g1, g2, g3, ?_, ?_⟩
    · have h1 : q * (255 / codeMaxDepth data) ≤ 255 := by
        rw [← mul_div_assoc, div_le_iff₀ hmax0]
        linarith
      linarith
    · have h2 : 0 ≤ q * (255 / codeMaxDepth data) :=
        mul_nonneg hq0 (div_nonneg (by norm_num) (le_of_lt hmax0))
      linarith

/-- Witness for claim C9 at a concrete three-sample buffer containing an
infinite sample. -/
theorem depth_saveImage_tonemap_witness :
    ((codeMaxDepth [Depth.fin 1, Depth.pinf, Depth.fin 2] ∈
        finiteVals [Depth.fin 1, Depth.pinf, Depth.fin 2] ∧
      ∀ x ∈ finiteVals [Depth.fin 1, Depth.pinf, Depth.fin 2],
        x ≤ codeMaxDepth [Depth.fin 1, Depth.pinf, Depth.fin 2]) ∧
     ∃ img, (DepthCameraSensorPrivate.SaveImage envOk depthBoundSave
         [Depth.fin 1, Depth.pinf, Depth.fin 2] 3 1).2.2 =
         some (depthBoundSave.savePrefixStr ++
               toString depthBoundSave.saveImageCounter ++ ".png", img) ∧
       ∀ j q, [Depth.fin 1, Depth.pinf, Depth.fin 2].get? j =
           some (Depth.fin q) →
         img.get? (3 * j) = some (some (toByte (255 - q *
           (255 / codeMaxDepth [Depth.fin 1, Depth.pinf, Depth.fin 2])))) ∧
         img.get? (3 * j + 1) = some (some (toByte (255 - q *
           (255 / codeMaxDepth [Depth.fin 1, Depth.pinf, Depth.fin 2])))) ∧
         img.get? (3 * j + 2) = some (some (toByte (255 - q *
           (255 / codeMaxDepth [Depth.fin 1, Depth.pinf, Depth.fin 2])))) ∧
         0 ≤ 255 - q *
           (255 / codeMaxDepth [Depth.fin 1, Depth.pinf, Depth.fin 2]) ∧
         255 - q *
           (255 / codeMaxDepth [Depth.fin 1, Depth.pinf, Depth.fin 2]) ≤
           255) :=
  depth_saveImage_tonemap envOk depthBoundSave
    [Depth.fin 1, Depth.pinf, Depth.fin 2] 3 1 (Or.inl rfl) (by decide)
    (by decide) rfl (by decide) (by decide)
